import Mathlib

/-!
A shallow embedding of `src/proxy.c` (a tiny forwarding HTTP proxy with an
in-memory object cache), together with theorems checking the natural-language
specification against it.

Modelling conventions:
* C strings and byte buffers are modelled as Lean `String`s (the proxy treats
  request and header lines as ASCII text, and the response as a raw byte
  sequence that we represent by its character sequence).
* The external collaborators (robust I/O, the request-line parser, the cache
  implemented in `cache.c`) are modelled as inputs/outputs of the handler:
  the lines read from the client are a `List String`, the parser's outcome is
  an `Option ParsedReq`, the origin's response is the list of chunks returned
  by successive reads, and the cache is an association list.
* The buffer caps `MAXLINE`, `MAXBUF` (from `csapp.h`) and `MAX_OBJECT_SIZE`
  (from `cache.h`) are not part of the given sources, so they are universally
  quantified parameters of the model rather than fixed numerals.
-/

set_option maxRecDepth 20000

/-- ASCII lower-casing of one character, as `tolower` does for ASCII input;
used to model `strcasecmp`/`strncasecmp`. -/
def asciiLower (c : Char) : Char :=
  if 'A'.toNat ≤ c.toNat ∧ c.toNat ≤ 'Z'.toNat then Char.ofNat (c.toNat + 32) else c

/-- Model of `strcasecmp s t == 0`: the two strings agree case-insensitively. -/
def caseEq (s t : String) : Bool :=
  s.data.map asciiLower == t.data.map asciiLower

/-- Model of `strncasecmp s t n == 0`: the first `n` characters agree
case-insensitively (comparison stops at the end of a shorter string, which is
what the C `'\0'` terminator produces). -/
def strncaseEq (s t : String) (n : Nat) : Bool :=
  (s.data.take n).map asciiLower == (t.data.take n).map asciiLower

/-- Model of `strncasecmp line pat (strlen pat) == 0`, the idiom `proxy.c` uses for all
its header and version tests: does `line` begin (case-insensitively) with
`pat`? -/
def matchPfx (line pat : String) : Bool :=
  strncaseEq line pat pat.data.length

/-- The constant `header_user_agent` from `proxy.c`. -/
def header_user_agent : String :=
  "User-Agent: Mozilla/5.0 (X11; Linux x86_64; rv:3.10.0) Gecko/20191101 Firefox/63.0.1\r\n"

/-- The constant `header_connection` from `proxy.c`. -/
def header_connection : String := "Connection: close\r\n"

/-- The constant `header_proxy_connection` from `proxy.c`. -/
def header_proxy_connection : String := "Proxy-Connection: close\r\n"

/-- The HTML body built by `clienterror` with `snprintf` (the full formatted
text; `snprintf`'s return value, which `clienterror` compares against
`MAXBUF`, is exactly this string's length). -/
def errorBody (cause errnum shortmsg longmsg : String) : String :=
  "<html>\r\n" ++
  "<head><title>Tiny Error</title></head>\r\n" ++
  "<body bgcolor=\"ffffff\">\r\n" ++
  "<h1>" ++ errnum ++ ": " ++ shortmsg ++ "</h1>\r\n" ++
  "<p>" ++ longmsg ++ ": " ++ cause ++ "</p>\r\n" ++
  "<hr><em>The Tiny Web server</em>\r\n" ++
  "</body></html>\r\n"

/-- The response-header block built by `clienterror` (status line,
`Content-Type`, `Content-Length`, blank line). -/
def errorHeadersStr (errnum shortmsg : String) (bodylen : Nat) : String :=
  "HTTP/1.0 " ++ errnum ++ " " ++ shortmsg ++ "\r\n" ++
  "Content-Type: text/html\r\n" ++
  "Content-Length: " ++ toString bodylen ++ "\r\n\r\n"

/-- The function `clienterror` from `proxy.c`: the sequence of writes it performs on the
client descriptor. It returns without writing anything when the formatted
body would reach `MAXBUF` or the formatted headers would reach `MAXLINE`
(the two `>=` overflow guards); otherwise it writes the header block and then
the body. -/
def clienterror (MAXLINE MAXBUF : Nat) (cause errnum shortmsg longmsg : String) :
    List String :=
  let body := errorBody cause errnum shortmsg longmsg
  if MAXBUF ≤ body.length then []
  else
    let hdr := errorHeadersStr errnum shortmsg body.length
    if MAXLINE ≤ hdr.length then []
    else [hdr, body]

/-- The header-reading loop of `build_http_request`: starting from the
proxy-built `Host` header `hh` and the accumulated other headers `oh`, it
consumes client header lines until a blank line (or EOF), overwriting `hh`
with any line that begins (case-insensitively) with `Host`, dropping lines
that begin with `User-Agent`, `Connection` or `Proxy-Connection`, and
appending every other line to `oh` unchanged. Returns the final
`(header_host, other_header)` pair. -/
def build_headers_loop : List String → String → String → String × String
  | [], hh, oh => (hh, oh)
  | l :: rest, hh, oh =>
    if l = "\r\n" then (hh, oh)
    else if matchPfx l "Host" then build_headers_loop rest l oh
    else if matchPfx l "User-Agent" ∨ matchPfx l "Connection" ∨
            matchPfx l "Proxy-Connection" then build_headers_loop rest hh oh
    else build_headers_loop rest hh (oh ++ l)

/-- The function `build_http_request` from `proxy.c`: reads the client's remaining header
lines and assembles the outbound request
`request_line ++ header_host ++ User-Agent ++ Connection ++
Proxy-Connection ++ other_header ++ "\r\n"`. -/
def build_http_request (headers : List String) (request_line header_host : String) :
    String :=
  let r := build_headers_loop headers header_host ""
  request_line ++ r.1 ++ header_user_agent ++ header_connection ++
    header_proxy_connection ++ r.2 ++ "\r\n"

/-- The structured fields the external request parser extracts from the
request line (`parser_retrieve` on METHOD, HTTP_VERSION, URI, HOST, PORT,
PATH). -/
structure ParsedReq where
  method : String
  version : String
  uri : String
  host : String
  port : String
  path : String
deriving DecidableEq

/-- Everything observable that one `doit` call does: the sequence of writes
to the client descriptor, the URI passed to `read_cache` (if the handler got
that far), the origin `(host, port)` a connection was opened to (if any),
the request text written to the origin (if any), and the `(uri, bytes)` pair
passed to `write_cache` (if any). -/
structure DoitResult where
  clientWrites : List String
  cacheLookup : Option String
  originConn : Option (String × String)
  sentRequest : Option String
  cacheWrite : Option (String × String)
deriving DecidableEq

/-- The `DoitResult` of an error exit through `clienterror`: possibly-empty
error-response writes, and no cache or origin activity. -/
def errResult (MAXLINE MAXBUF : Nat) (buf errnum shortmsg longmsg : String) :
    DoitResult :=
  { clientWrites := clienterror MAXLINE MAXBUF buf errnum shortmsg longmsg
    cacheLookup := none
    originConn := none
    sentRequest := none
    cacheWrite := none }

/-- Modelled from the spec: `read_cache` lives in `cache.c`, which is not
among the given sources. Per §4.3/§6 of the spec, `lookup(uri)` returns the
cached body on an exact match of `uri` and reports a miss otherwise; as used
in `doit` (`(n = read_cache(uri, fd)) > 0`), a hit writes the cached body to
the client descriptor and returns its size. -/
def read_cache (cache : List (String × String)) (uri : String) : Option String :=
  match cache.find? (fun e => e.1 == uri) with
  | some e => some e.2
  | none => none

/-- The version test in `doit`:
`!(strncasecmp(version, "1.0", 3) && strncasecmp(version, "1.1", 3))`,
i.e. the version's first three characters are `1.0` or `1.1`. -/
def versionOk (v : String) : Bool :=
  matchPfx v "1.0" || matchPfx v "1.1"

/-- The response-relay loop of `doit`: for each chunk read from the origin it
first writes the chunk to the client, then adds its length to
`response_size`, and copies it into the accumulation buffer only while the
running total is still strictly below `MAX_OBJECT_SIZE`. Returns the list of
client writes, the final `response_size` and the accumulated bytes. -/
def relayLoop (maxObj : Nat) : List String → Nat → String → List String × Nat × String
  | [], size, acc => ([], size, acc)
  | c :: rest, size, acc =>
    let size' := size + c.length
    let acc' := if size' < maxObj then acc ++ c else acc
    let r := relayLoop maxObj rest size' acc'
    (c :: r.1, r.2.1, r.2.2)

/-- The cache-miss tail of `doit`: build the forwarded request from the
parsed fields and the client's remaining headers, open a connection to the
origin (on failure, log and abandon), send the request, relay the response,
and call `write_cache` exactly when the final `response_size` stayed
strictly below `MAX_OBJECT_SIZE`. -/
def doitMiss (maxObj : Nat) (p : ParsedReq) (headers : List String)
    (connectOk : Bool) (chunks : List String) : DoitResult :=
  let request_line := "GET " ++ p.path ++ " HTTP/1.0\r\n"
  let header_host := "Host: " ++ p.host ++ ":" ++ p.port ++ "\r\n"
  let http_request := build_http_request headers request_line header_host
  if connectOk then
    let r := relayLoop maxObj chunks 0 ""
    { clientWrites := r.1
      cacheLookup := some p.uri
      originConn := some (p.host, p.port)
      sentRequest := some http_request
      cacheWrite := if r.2.1 < maxObj then some (p.uri, r.2.2) else none }
  else
    { clientWrites := []
      cacheLookup := some p.uri
      originConn := none
      sentRequest := none
      cacheWrite := none }

/-- The function `doit` from `proxy.c`. Inputs: the raw request line `buf` as read from
the client, the parser's outcome (`none` models `parser_parse_line`
returning `ERROR`), the client's remaining header lines, the cache contents,
whether `open_clientfd` succeeds, and the chunks successive origin reads
return. The branches follow the source in order: parse error → 400; method
other than `GET` (case-insensitive) → 501; version not accepted → 400;
`read_cache` wrote a positive number of bytes → done; otherwise the
cache-miss tail. -/
def doit (MAXLINE MAXBUF maxObj : Nat) (buf : String) (parsed : Option ParsedReq)
    (headers : List String) (cache : List (String × String))
    (connectOk : Bool) (chunks : List String) : DoitResult :=
  match parsed with
  | none =>
    errResult MAXLINE MAXBUF buf "400" "Bad Request"
      "Tiny could not handle this request (ERROR)"
  | some p =>
    if caseEq p.method "GET" then
      if versionOk p.version then
        match read_cache cache p.uri with
        | some body =>
          if 0 < body.length then
            { clientWrites := [body]
              cacheLookup := some p.uri
              originConn := none
              sentRequest := none
              cacheWrite := none }
          else doitMiss maxObj p headers connectOk chunks
        | none => doitMiss maxObj p headers connectOk chunks
      else
        errResult MAXLINE MAXBUF buf "400" "Bad Request"
          "Tiny could not handle this request (HTTP_VERSION)"
    else
      errResult MAXLINE MAXBUF buf "501" "Not implemented"
        "Tiny does not implement this method"

/-- What one iteration of the dispatcher's `while (1)` accept loop does after
`accept` returns: on a negative descriptor it only logs (`perror`) and
continues; otherwise it spawns a detached worker thread for the connection.
The loop body contains no `break`/`return`, so there is no constructor for
leaving the loop. -/
inductive LoopAction where
  | spawned (fd : Int)
  | loggedError
deriving DecidableEq

/-- The body of the accept loop in `main`, as a function of the value
`accept` returned. -/
def acceptIter (acceptResult : Int) : LoopAction :=
  if acceptResult < 0 then LoopAction.loggedError
  else LoopAction.spawned acceptResult

/-- The accept loop of `main` run over a finite prefix of `accept` results:
every result is processed and yields exactly one action. -/
def acceptLoop (results : List Int) : List LoopAction :=
  results.map acceptIter

/-- Concatenation of the origin's response chunks: the full byte sequence
the origin sent. -/
def concatChunks : List String → String
  | [] => ""
  | c :: cs => c ++ concatChunks cs

/-- Spec-side description of the forwarded `Host` header (used to state the
amended C1): the last client header line before the blank line that begins
(case-insensitively) with `Host`, or the proxy-built `Host: <host>:<port>`
line when the client supplied none. -/
def forwardedHostHeader : List String → String → String
  | [], hh => hh
  | l :: rest, hh =>
    if l = "\r\n" then hh
    else if matchPfx l "Host" then forwardedHostHeader rest l
    else forwardedHostHeader rest hh

/-- Spec-side description of the forwarded extra headers: the client header
lines before the blank line, in their original order and unchanged, with
every line beginning (case-insensitively) with `Host`, `User-Agent`,
`Connection` or `Proxy-Connection` removed. -/
def forwardedExtraHeaders : List String → String
  | [] => ""
  | l :: rest =>
    if l = "\r\n" then ""
    else if matchPfx l "Host" then forwardedExtraHeaders rest
    else if matchPfx l "User-Agent" ∨ matchPfx l "Connection" ∨
            matchPfx l "Proxy-Connection" then forwardedExtraHeaders rest
    else l ++ forwardedExtraHeaders rest

/-- The header-reading loop computes the spec-side Host header and extra
headers: the final `header_host` is the last client `Host`-prefixed line
(defaulting to the initial one), and the accumulated other headers are the
unfiltered lines in order, appended to the initial accumulator. -/
theorem build_headers_loop_eq (headers : List String) (hh oh : String) :
    build_headers_loop headers hh oh =
      (forwardedHostHeader headers hh, oh ++ forwardedExtraHeaders headers) := by
  induction headers generalizing hh oh with
  | nil =>
    simp [build_headers_loop, forwardedHostHeader, forwardedExtraHeaders,
      String.append_empty]
  | cons l rest ih =>
    by_cases hb : l = "\r\n"
    · simp [build_headers_loop, forwardedHostHeader, forwardedExtraHeaders, hb,
        String.append_empty]
    · by_cases hhost : matchPfx l "Host" = true
      · simp [build_headers_loop, forwardedHostHeader, forwardedExtraHeaders, hb,
          hhost, ih]
      · by_cases hfilt : matchPfx l "User-Agent" ∨ matchPfx l "Connection" ∨
            matchPfx l "Proxy-Connection"
        · simp [build_headers_loop, forwardedHostHeader, forwardedExtraHeaders, hb,
            hhost, hfilt, ih]
        · simp [build_headers_loop, forwardedHostHeader, forwardedExtraHeaders, hb,
            hhost, hfilt, ih, String.append_assoc]

/-- Closed form of `build_http_request`: the request line, then the last
client-supplied `Host`-prefixed line (or the proxy-built one), then the three
fixed headers, then the filtered remaining client headers in order, then the
blank line. -/
theorem build_http_request_eq (headers : List String) (rl hh : String) :
    build_http_request headers rl hh =
      rl ++ forwardedHostHeader headers hh ++ header_user_agent ++
        header_connection ++ header_proxy_connection ++
        forwardedExtraHeaders headers ++ "\r\n" := by
  simp [build_http_request, build_headers_loop_eq, String.empty_append]

/-- The relay loop writes every chunk to the client, in order, exactly as
read. -/
theorem relayLoop_writes (maxObj : Nat) (cs : List String) (size : Nat)
    (acc : String) : (relayLoop maxObj cs size acc).1 = cs := by
  induction cs generalizing size acc with
  | nil => simp [relayLoop]
  | cons c rest ih => simp [relayLoop, ih]

/-- The relay loop's final `response_size` is the initial size plus the total
length of all chunks. -/
theorem relayLoop_size (maxObj : Nat) (cs : List String) (size : Nat)
    (acc : String) :
    (relayLoop maxObj cs size acc).2.1 = size + (concatChunks cs).length := by
  induction cs generalizing size acc with
  | nil => simp [relayLoop, concatChunks]
  | cons c rest ih =>
    simp [relayLoop, concatChunks, ih, String.length_append, Nat.add_assoc]

/-- While the running total stays strictly below the cap, the relay loop
accumulates every chunk, so the final buffer is the initial one followed by
the whole response. -/
theorem relayLoop_acc (maxObj : Nat) (cs : List String) (size : Nat)
    (acc : String) (h : size + (concatChunks cs).length < maxObj) :
    (relayLoop maxObj cs size acc).2.2 = acc ++ concatChunks cs := by
  induction cs generalizing size acc with
  | nil => simp [relayLoop, concatChunks, String.append_empty]
  | cons c rest ih =>
    have hlen : (concatChunks (c :: rest)).length =
        c.length + (concatChunks rest).length := by
      simp [concatChunks, String.length_append]
    have hrest : size + c.length + (concatChunks rest).length < maxObj := by
      rw [hlen] at h; omega
    have hsize : size + c.length < maxObj := by omega
    simp only [relayLoop]
    rw [if_pos hsize, ih _ _ hrest, concatChunks, String.append_assoc]

/-- C7: when the Request Parser reports a parse error on the request line,
the handler writes the 400 Bad Request error response (headers then body,
whenever the formatted body fits below MAXBUF and the formatted headers fit
below MAXLINE) and terminates, with no cache lookup and no origin contact. -/
theorem c7_parse_error_400 (MAXLINE MAXBUF maxObj : Nat) (buf : String)
    (headers : List String) (cache : List (String × String)) (connectOk : Bool)
    (chunks : List String)
    (hbody : (errorBody buf "400" "Bad Request"
      "Tiny could not handle this request (ERROR)").length < MAXBUF)
    (hhdr : (errorHeadersStr "400" "Bad Request" (errorBody buf "400" "Bad Request"
      "Tiny could not handle this request (ERROR)").length).length < MAXLINE) :
    doit MAXLINE MAXBUF maxObj buf none headers cache connectOk chunks =
      { clientWrites := [errorHeadersStr "400" "Bad Request"
          (errorBody buf "400" "Bad Request"
            "Tiny could not handle this request (ERROR)").length,
          errorBody buf "400" "Bad Request"
            "Tiny could not handle this request (ERROR)"]
        cacheLookup := none
        originConn := none
        sentRequest := none
        cacheWrite := none } := by
  have hb := Nat.not_le.mpr hbody
  have hh := Nat.not_le.mpr hhdr
  simp [doit, errResult, clienterror, hb, hh]

/-- Witness for `c7_parse_error_400` at a concrete malformed request. -/
theorem c7_parse_error_400_witness :
    (errorBody "bad line" "400" "Bad Request"
      "Tiny could not handle this request (ERROR)").length < 9000 ∧
    (errorHeadersStr "400" "Bad Request" (errorBody "bad line" "400" "Bad Request"
      "Tiny could not handle this request (ERROR)").length).length < 9000 ∧
    doit 9000 9000 100 "bad line" none [] [] false [] =
      { clientWrites := [errorHeadersStr "400" "Bad Request"
          (errorBody "bad line" "400" "Bad Request"
            "Tiny could not handle this request (ERROR)").length,
          errorBody "bad line" "400" "Bad Request"
            "Tiny could not handle this request (ERROR)"]
        cacheLookup := none
        originConn := none
        sentRequest := none
        cacheWrite := none } :=
  ⟨by decide, by decide,
    c7_parse_error_400 9000 9000 100 "bad line" [] [] false [] (by decide) (by decide)⟩

/-- C5: when the parsed method is not GET (case-insensitive `strcasecmp`),
the handler writes the 501 Not implemented error response (headers then
body, whenever the formatted body fits below MAXBUF and the formatted
headers fit below MAXLINE) and terminates, with no cache lookup and no
origin contact. -/
theorem c5_non_get_501 (MAXLINE MAXBUF maxObj : Nat) (buf : String) (p : ParsedReq)
    (headers : List String) (cache : List (String × String)) (connectOk : Bool)
    (chunks : List String)
    (hm : caseEq p.method "GET" = false)
    (hbody : (errorBody buf "501" "Not implemented"
      "Tiny does not implement this method").length < MAXBUF)
    (hhdr : (errorHeadersStr "501" "Not implemented" (errorBody buf "501"
      "Not implemented" "Tiny does not implement this method").length).length
      < MAXLINE) :
    doit MAXLINE MAXBUF maxObj buf (some p) headers cache connectOk chunks =
      { clientWrites := [errorHeadersStr "501" "Not implemented"
          (errorBody buf "501" "Not implemented"
            "Tiny does not implement this method").length,
          errorBody buf "501" "Not implemented"
            "Tiny does not implement this method"]
        cacheLookup := none
        originConn := none
        sentRequest := none
        cacheWrite := none } := by
  have hb := Nat.not_le.mpr hbody
  have hh := Nat.not_le.mpr hhdr
  simp [doit, hm, errResult, clienterror, hb, hh]

/-- Witness for `c5_non_get_501` at a concrete POST request. -/
theorem c5_non_get_501_witness :
    caseEq "POST" "GET" = false ∧
    (errorBody "POST / HTTP/1.1" "501" "Not implemented"
      "Tiny does not implement this method").length < 9000 ∧
    (errorHeadersStr "501" "Not implemented" (errorBody "POST / HTTP/1.1" "501"
      "Not implemented" "Tiny does not implement this method").length).length
      < 9000 ∧
    doit 9000 9000 100 "POST / HTTP/1.1"
      (some (ParsedReq.mk "POST" "1.1" "u:80/" "u" "80" "/")) [] [] false [] =
      { clientWrites := [errorHeadersStr "501" "Not implemented"
          (errorBody "POST / HTTP/1.1" "501" "Not implemented"
            "Tiny does not implement this method").length,
          errorBody "POST / HTTP/1.1" "501" "Not implemented"
            "Tiny does not implement this method"]
        cacheLookup := none
        originConn := none
        sentRequest := none
        cacheWrite := none } :=
  ⟨by decide, by decide, by decide,
    c5_non_get_501 9000 9000 100 "POST / HTTP/1.1"
      (ParsedReq.mk "POST" "1.1" "u:80/" "u" "80" "/") [] [] false []
      (by decide) (by decide) (by decide)⟩

/-- C6 counterexample: the version string `1.05` is neither `1.0` nor `1.1`,
yet the handler does not send a 400 response — it proceeds to the cache
lookup and serves the cached object, because the code only compares the
first three characters of the version (`strncasecmp(version, "1.0", 3)`). -/
theorem c6_version_counterexample :
    "1.05" ≠ "1.0" ∧ "1.05" ≠ "1.1" ∧
    (doit 9000 9000 100 "GET http://u/ HTTP/1.05"
      (some (ParsedReq.mk "GET" "1.05" "u:80/" "u" "80" "/")) []
      [("u:80/", "cached-bytes")] false []).clientWrites = ["cached-bytes"] ∧
    (doit 9000 9000 100 "GET http://u/ HTTP/1.05"
      (some (ParsedReq.mk "GET" "1.05" "u:80/" "u" "80" "/")) []
      [("u:80/", "cached-bytes")] false []).cacheLookup = some "u:80/" := by
  decide

/-- C6 (amended): a parsed GET request is accepted exactly when the first
three characters of its HTTP version string are `1.0` or `1.1`
(case-insensitively); otherwise the handler exits through the 400 Bad
Request error response with no cache lookup and no origin contact, and when
the prefix matches it proceeds to the cache lookup on the request URI. -/
theorem c6_version_prefix_check (MAXLINE MAXBUF maxObj : Nat) (buf : String)
    (p : ParsedReq) (headers : List String) (cache : List (String × String))
    (connectOk : Bool) (chunks : List String)
    (hm : caseEq p.method "GET" = true) :
    (versionOk p.version = false →
      doit MAXLINE MAXBUF maxObj buf (some p) headers cache connectOk chunks =
        { clientWrites := clienterror MAXLINE MAXBUF buf "400" "Bad Request"
            "Tiny could not handle this request (HTTP_VERSION)"
          cacheLookup := none
          originConn := none
          sentRequest := none
          cacheWrite := none }) ∧
    (versionOk p.version = true →
      (doit MAXLINE MAXBUF maxObj buf (some p) headers cache connectOk
        chunks).cacheLookup = some p.uri) := by
  constructor
  · intro hv
    simp [doit, hm, hv, errResult]
  · intro hv
    cases hrc : read_cache cache p.uri with
    | none => cases connectOk <;> simp [doit, hm, hv, hrc, doitMiss]
    | some body =>
      by_cases hb0 : 0 < body.length
      · simp [doit, hm, hv, hrc, hb0]
      · cases connectOk <;> simp [doit, hm, hv, hrc, hb0, doitMiss]

/-- Witness for `c6_version_prefix_check`: a GET request with version `2.0`
exits through the 400 error response. -/
theorem c6_version_prefix_check_witness :
    caseEq "GET" "GET" = true ∧ versionOk "2.0" = false ∧
    doit 9000 9000 100 "GET http://u/ HTTP/2.0"
      (some (ParsedReq.mk "GET" "2.0" "u:80/" "u" "80" "/")) [] [] false [] =
      { clientWrites := clienterror 9000 9000 "GET http://u/ HTTP/2.0" "400"
          "Bad Request" "Tiny could not handle this request (HTTP_VERSION)"
        cacheLookup := none
        originConn := none
        sentRequest := none
        cacheWrite := none } :=
  ⟨by decide, by decide,
    (c6_version_prefix_check 9000 9000 100 "GET http://u/ HTTP/2.0"
      (ParsedReq.mk "GET" "2.0" "u:80/" "u" "80" "/") [] [] false []
      (by decide)).1 (by decide)⟩

/-- C8: the dispatcher's accept loop never terminates because of a failed
accept: a negative accept result only logs the error, and the loop goes on
to process every subsequent accept result exactly as it would have. -/
theorem c8_accept_failure_continues (pre post : List Int) (r : Int) (h : r < 0) :
    acceptIter r = LoopAction.loggedError ∧
    acceptLoop (pre ++ r :: post) =
      acceptLoop pre ++ LoopAction.loggedError :: acceptLoop post := by
  constructor
  · simp [acceptIter, h]
  · simp [acceptLoop, acceptIter, h]

/-- Witness for `c8_accept_failure_continues` at a concrete failing accept
between two successful ones. -/
theorem c8_accept_failure_continues_witness :
    (-1 : Int) < 0 ∧
    acceptIter (-1) = LoopAction.loggedError ∧
    acceptLoop ([3] ++ (-1) :: [4]) =
      acceptLoop [3] ++ LoopAction.loggedError :: acceptLoop [4] :=
  ⟨by decide, (c8_accept_failure_continues [3] [4] (-1) (by decide)).1,
    (c8_accept_failure_continues [3] [4] (-1) (by decide)).2⟩

/-- C9: whenever the formatted HTML body would reach MAXBUF bytes, or the
formatted response headers would reach MAXLINE bytes, `clienterror` returns
without writing any bytes to the client. -/
theorem c9_clienterror_overflow (MAXLINE MAXBUF : Nat)
    (cause errnum shortmsg longmsg : String)
    (h : MAXBUF ≤ (errorBody cause errnum shortmsg longmsg).length ∨
      MAXLINE ≤ (errorHeadersStr errnum shortmsg
        (errorBody cause errnum shortmsg longmsg).length).length) :
    clienterror MAXLINE MAXBUF cause errnum shortmsg longmsg = [] := by
  unfold clienterror
  rcases h with h | h
  · rw [if_pos h]
  · by_cases hb : MAXBUF ≤ (errorBody cause errnum shortmsg longmsg).length
    · rw [if_pos hb]
    · rw [if_neg hb, if_pos h]

/-- Witness for `c9_clienterror_overflow`: with a body cap of 10 bytes, the
400 error for a concrete request line writes nothing at all. -/
theorem c9_clienterror_overflow_witness :
    (10 ≤ (errorBody "GET /x HTTP/1.1" "400" "Bad Request"
      "Tiny could not handle this request (ERROR)").length ∨
      9000 ≤ (errorHeadersStr "400" "Bad Request"
        (errorBody "GET /x HTTP/1.1" "400" "Bad Request"
          "Tiny could not handle this request (ERROR)").length).length) ∧
    clienterror 9000 10 "GET /x HTTP/1.1" "400" "Bad Request"
      "Tiny could not handle this request (ERROR)" = [] :=
  ⟨Or.inl (by decide),
    c9_clienterror_overflow 9000 10 "GET /x HTTP/1.1" "400" "Bad Request"
      "Tiny could not handle this request (ERROR)" (Or.inl (by decide))⟩

/-- C10: header filtering matches a case-insensitive prefix of the raw line,
not an exact header name: a line beginning with `Host` (and not equal to the
blank line) becomes the forwarded request's Host header, and a line
beginning with `User-Agent`, `Connection` or `Proxy-Connection` is dropped
from the forwarded request. -/
theorem c10_header_filter_pfx (l rl hh : String) (rest : List String)
    (hne : l ≠ "\r\n") :
    (matchPfx l "Host" = true →
      build_http_request (l :: rest) rl hh = build_http_request rest rl l) ∧
    (matchPfx l "Host" = false →
      (matchPfx l "User-Agent" || matchPfx l "Connection" ||
        matchPfx l "Proxy-Connection") = true →
      build_http_request (l :: rest) rl hh = build_http_request rest rl hh) := by
  constructor
  · intro hhost
    simp [build_http_request, build_headers_loop, hne, hhost]
  · intro hhost hfilt
    simp only [Bool.or_eq_true] at hfilt
    rcases hfilt with (ha | hb) | hc
    · simp [build_http_request, build_headers_loop, hne, hhost, ha]
    · simp [build_http_request, build_headers_loop, hne, hhost, hb]
    · simp [build_http_request, build_headers_loop, hne, hhost, hc]

/-- Witness for `c10_header_filter_pfx`: `Connection-Id: 5` is dropped and
`Host-Override: x` becomes the forwarded Host header. -/
theorem c10_header_filter_pfx_witness :
    ("Connection-Id: 5\r\n" ≠ "\r\n" ∧
      matchPfx "Connection-Id: 5\r\n" "Host" = false ∧
      (matchPfx "Connection-Id: 5\r\n" "User-Agent" ||
        matchPfx "Connection-Id: 5\r\n" "Connection" ||
        matchPfx "Connection-Id: 5\r\n" "Proxy-Connection") = true ∧
      build_http_request ["Connection-Id: 5\r\n"] "GET / HTTP/1.0\r\n"
          "Host: h:80\r\n" =
        build_http_request [] "GET / HTTP/1.0\r\n" "Host: h:80\r\n") ∧
    ("Host-Override: x\r\n" ≠ "\r\n" ∧
      matchPfx "Host-Override: x\r\n" "Host" = true ∧
      build_http_request ["Host-Override: x\r\n"] "GET / HTTP/1.0\r\n"
          "Host: h:80\r\n" =
        build_http_request [] "GET / HTTP/1.0\r\n" "Host-Override: x\r\n") :=
  ⟨⟨by decide, by decide, by decide,
    (c10_header_filter_pfx "Connection-Id: 5\r\n" "GET / HTTP/1.0\r\n"
      "Host: h:80\r\n" [] (by decide)).2 (by decide) (by decide)⟩,
   ⟨by decide, by decide,
    (c10_header_filter_pfx "Host-Override: x\r\n" "GET / HTTP/1.0\r\n"
      "Host: h:80\r\n" [] (by decide)).1 (by decide)⟩⟩

/-- C1 counterexample: on a cache miss where the client supplied its own
`Host: evil.test:81` header, the request forwarded to the origin carries the
client's Host line, not the proxy-built `Host: example.com:80` the claim
requires. -/
theorem c1_host_counterexample :
    (doit 9000 9000 100 "GET http://example.com/ HTTP/1.1\r\n"
      (some (ParsedReq.mk "GET" "1.1" "example.com:80/" "example.com" "80" "/"))
      ["Host: evil.test:81\r\n", "\r\n"] [] true []).sentRequest =
      some ("GET / HTTP/1.0\r\nHost: evil.test:81\r\n" ++ header_user_agent ++
        "Connection: close\r\nProxy-Connection: close\r\n\r\n") ∧
    (doit 9000 9000 100 "GET http://example.com/ HTTP/1.1\r\n"
      (some (ParsedReq.mk "GET" "1.1" "example.com:80/" "example.com" "80" "/"))
      ["Host: evil.test:81\r\n", "\r\n"] [] true []).sentRequest ≠
      some ("GET / HTTP/1.0\r\nHost: example.com:80\r\n" ++ header_user_agent ++
        "Connection: close\r\nProxy-Connection: close\r\n\r\n") := by
  decide

/-- C1 (amended): for every cache-miss GET request, the forwarded request is
the request line `GET <path> HTTP/1.0`, then the Host header — the
proxy-built `Host: <host>:<port>` unless the client supplied lines beginning
with `Host`, in which case the last such client line is used verbatim in its
place — then the fixed User-Agent, `Connection: close` and
`Proxy-Connection: close` headers, then the client's remaining headers with
lines beginning with `Host`, `User-Agent`, `Connection` or
`Proxy-Connection` removed and the rest forwarded unchanged in their
original order, terminated by a blank line. -/
theorem c1_forwarded_request_format (MAXLINE MAXBUF maxObj : Nat) (buf : String)
    (p : ParsedReq) (headers : List String) (cache : List (String × String))
    (chunks : List String)
    (hm : caseEq p.method "GET" = true) (hv : versionOk p.version = true)
    (hmiss : read_cache cache p.uri = none) :
    (doit MAXLINE MAXBUF maxObj buf (some p) headers cache true
      chunks).sentRequest =
      some (("GET " ++ p.path ++ " HTTP/1.0\r\n") ++
        forwardedHostHeader headers ("Host: " ++ p.host ++ ":" ++ p.port ++ "\r\n")
        ++ header_user_agent ++ header_connection ++ header_proxy_connection ++
        forwardedExtraHeaders headers ++ "\r\n") := by
  simp [doit, hm, hv, hmiss, doitMiss, build_http_request_eq]

/-- Witness for `c1_forwarded_request_format` at a concrete request with one
client Host line and one forwarded extra header. -/
theorem c1_forwarded_request_format_witness :
    caseEq "GET" "GET" = true ∧ versionOk "1.1" = true ∧
    read_cache [] "example.com:80/" = none ∧
    (doit 9000 9000 100 "GET http://example.com/ HTTP/1.1\r\n"
      (some (ParsedReq.mk "GET" "1.1" "example.com:80/" "example.com" "80" "/"))
      ["Host: evil.test:81\r\n", "Accept: */*\r\n", "\r\n"] [] true
      []).sentRequest =
      some (("GET " ++ "/" ++ " HTTP/1.0\r\n") ++
        forwardedHostHeader ["Host: evil.test:81\r\n", "Accept: */*\r\n", "\r\n"]
          ("Host: " ++ "example.com" ++ ":" ++ "80" ++ "\r\n")
        ++ header_user_agent ++ header_connection ++ header_proxy_connection ++
        forwardedExtraHeaders ["Host: evil.test:81\r\n", "Accept: */*\r\n", "\r\n"]
        ++ "\r\n") :=
  ⟨by decide, by decide, by decide,
    c1_forwarded_request_format 9000 9000 100 "GET http://example.com/ HTTP/1.1\r\n"
      (ParsedReq.mk "GET" "1.1" "example.com:80/" "example.com" "80" "/")
      ["Host: evil.test:81\r\n", "Accept: */*\r\n", "\r\n"] [] []
      (by decide) (by decide) (by decide)⟩

/-- C2 counterexample: a response whose total size equals `MAX_OBJECT_SIZE`
(here 4 bytes with the cap at 4) stays within the cap in the claim's sense
(`total ≤ cap`), yet `doit` does not insert it into the cache, because the
code tests `response_size < MAX_OBJECT_SIZE` strictly. -/
theorem c2_boundary_counterexample :
    (concatChunks ["ab", "cd"]).length ≤ 4 ∧
    (doit 9000 9000 4 "GET http://u/ HTTP/1.1\r\n"
      (some (ParsedReq.mk "GET" "1.1" "u:80/" "u" "80" "/")) ["\r\n"] [] true
      ["ab", "cd"]).cacheWrite = none := by
  decide

/-- C2 (amended): for every request whose origin response is read to EOF,
the URI-to-accumulated-bytes pair is inserted into the cache exactly when
the total response size is strictly below `MAX_OBJECT_SIZE`; at or above the
cap nothing is inserted, and when it is inserted the stored bytes are the
whole relayed response. -/
theorem c2_cache_insert_strict (MAXLINE MAXBUF maxObj : Nat) (buf : String)
    (p : ParsedReq) (headers : List String) (cache : List (String × String))
    (chunks : List String)
    (hm : caseEq p.method "GET" = true) (hv : versionOk p.version = true)
    (hmiss : read_cache cache p.uri = none) :
    (doit MAXLINE MAXBUF maxObj buf (some p) headers cache true
      chunks).cacheWrite =
      if (concatChunks chunks).length < maxObj then
        some (p.uri, concatChunks chunks)
      else none := by
  simp only [doit, hm, hv, hmiss, doitMiss, if_true]
  by_cases hlt : (concatChunks chunks).length < maxObj
  · rw [relayLoop_size]
    rw [if_pos (by omega), if_pos hlt,
      relayLoop_acc maxObj chunks 0 "" (by omega), String.empty_append]
  · rw [relayLoop_size]
    rw [if_neg (by omega), if_neg hlt]

/-- Witness for `c2_cache_insert_strict`: a 4-byte response against a cap of
5 is cached in full; the same response against a cap of 4 is not. -/
theorem c2_cache_insert_strict_witness :
    caseEq "GET" "GET" = true ∧ versionOk "1.1" = true ∧
    read_cache [] "u:80/" = none ∧
    (doit 9000 9000 5 "GET http://u/ HTTP/1.1\r\n"
      (some (ParsedReq.mk "GET" "1.1" "u:80/" "u" "80" "/")) ["\r\n"] [] true
      ["ab", "cd"]).cacheWrite =
      (if (concatChunks ["ab", "cd"]).length < 5 then
        some ("u:80/", concatChunks ["ab", "cd"])
      else none) :=
  ⟨by decide, by decide, by decide,
    c2_cache_insert_strict 9000 9000 5 "GET http://u/ HTTP/1.1\r\n"
      (ParsedReq.mk "GET" "1.1" "u:80/" "u" "80" "/") ["\r\n"] [] ["ab", "cd"]
      (by decide) (by decide) (by decide)⟩

/-- C3 counterexample: a cache entry whose stored body is empty is an entry
for the requested URI, yet the handler still opens a connection to the
origin and forwards a request, because `doit` treats `read_cache`'s return
value `0` (the size of the cached body it wrote) as a miss
(`read_cache(uri, fd) > 0`). -/
theorem c3_empty_entry_counterexample :
    read_cache [("example.com:80/", "")] "example.com:80/" = some "" ∧
    (doit 9000 9000 100 "GET http://example.com/ HTTP/1.1\r\n"
      (some (ParsedReq.mk "GET" "1.1" "example.com:80/" "example.com" "80" "/"))
      ["\r\n"] [("example.com:80/", "")] true
      ["HTTP/1.0 200 OK\r\n\r\nhi"]).originConn = some ("example.com", "80") ∧
    (doit 9000 9000 100 "GET http://example.com/ HTTP/1.1\r\n"
      (some (ParsedReq.mk "GET" "1.1" "example.com:80/" "example.com" "80" "/"))
      ["\r\n"] [("example.com:80/", "")] true
      ["HTTP/1.0 200 OK\r\n\r\nhi"]).sentRequest ≠ none := by
  decide

/-- C3 (amended): for every valid GET request whose URI has an entry with a
nonempty body in the cache (exact string match), the handler writes the
cached bytes verbatim to the client and terminates without opening any
connection to an origin server, without sending any forwarded request, and
without inserting anything into the cache. -/
theorem c3_cache_hit_no_origin (MAXLINE MAXBUF maxObj : Nat) (buf : String)
    (p : ParsedReq) (headers : List String) (cache : List (String × String))
    (connectOk : Bool) (chunks : List String) (body : String)
    (hm : caseEq p.method "GET" = true) (hv : versionOk p.version = true)
    (hhit : read_cache cache p.uri = some body) (hne : 0 < body.length) :
    doit MAXLINE MAXBUF maxObj buf (some p) headers cache connectOk chunks =
      { clientWrites := [body]
        cacheLookup := some p.uri
        originConn := none
        sentRequest := none
        cacheWrite := none } := by
  simp [doit, hm, hv, hhit, hne]

/-- Witness for `c3_cache_hit_no_origin` at a concrete cached response. -/
theorem c3_cache_hit_no_origin_witness :
    caseEq "GET" "GET" = true ∧ versionOk "1.1" = true ∧
    read_cache [("example.com:80/", "HTTP/1.0 200 OK\r\n\r\nhello")]
      "example.com:80/" = some "HTTP/1.0 200 OK\r\n\r\nhello" ∧
    0 < ("HTTP/1.0 200 OK\r\n\r\nhello").length ∧
    doit 9000 9000 100 "GET http://example.com/ HTTP/1.1\r\n"
      (some (ParsedReq.mk "GET" "1.1" "example.com:80/" "example.com" "80" "/"))
      ["\r\n"] [("example.com:80/", "HTTP/1.0 200 OK\r\n\r\nhello")] true
      ["ignored"] =
      { clientWrites := ["HTTP/1.0 200 OK\r\n\r\nhello"]
        cacheLookup := some "example.com:80/"
        originConn := none
        sentRequest := none
        cacheWrite := none } :=
  ⟨by decide, by decide, by decide, by decide,
    c3_cache_hit_no_origin 9000 9000 100 "GET http://example.com/ HTTP/1.1\r\n"
      (ParsedReq.mk "GET" "1.1" "example.com:80/" "example.com" "80" "/")
      ["\r\n"] [("example.com:80/", "HTTP/1.0 200 OK\r\n\r\nhello")] true
      ["ignored"] "HTTP/1.0 200 OK\r\n\r\nhello"
      (by decide) (by decide) (by decide) (by decide)⟩

/-- C4: on the relay path, every chunk read from the origin is written to
the client in order, exactly as read, so the client receives the origin's
bytes in full — the `MAX_OBJECT_SIZE` cap never alters the writes to the
client, whatever the total size. -/
theorem c4_full_relay_to_client (MAXLINE MAXBUF maxObj : Nat) (buf : String)
    (p : ParsedReq) (headers : List String) (cache : List (String × String))
    (chunks : List String)
    (hm : caseEq p.method "GET" = true) (hv : versionOk p.version = true)
    (hmiss : read_cache cache p.uri = none) :
    (doit MAXLINE MAXBUF maxObj buf (some p) headers cache true
      chunks).clientWrites = chunks := by
  simp [doit, hm, hv, hmiss, doitMiss, relayLoop_writes]

/-- Witness for `c4_full_relay_to_client`: with the cap at 3 bytes and a
6-byte response, the client still receives both chunks (while nothing is
cached). -/
theorem c4_full_relay_to_client_witness :
    caseEq "GET" "GET" = true ∧ versionOk "1.1" = true ∧
    read_cache [] "u:80/" = none ∧
    3 < (concatChunks ["abc", "def"]).length ∧
    (doit 9000 9000 3 "GET http://u/ HTTP/1.1\r\n"
      (some (ParsedReq.mk "GET" "1.1" "u:80/" "u" "80" "/")) ["\r\n"] [] true
      ["abc", "def"]).clientWrites = ["abc", "def"] ∧
    (doit 9000 9000 3 "GET http://u/ HTTP/1.1\r\n"
      (some (ParsedReq.mk "GET" "1.1" "u:80/" "u" "80" "/")) ["\r\n"] [] true
      ["abc", "def"]).cacheWrite = none :=
  ⟨by decide, by decide, by decide, by decide,
    c4_full_relay_to_client 9000 9000 3 "GET http://u/ HTTP/1.1\r\n"
      (ParsedReq.mk "GET" "1.1" "u:80/" "u" "80" "/") ["\r\n"] [] ["abc", "def"]
      (by decide) (by decide) (by decide),
    by decide⟩
